import Mathlib

/-!
Verification development for the AF/KLM fleet catalog updater
(`fleet-update.js`).  The JavaScript source is shallowly embedded below:
pure functions become Lean functions, the stateful pieces of `main` become
explicit state passing, nullable JS values become `Option`, and the clock
(`new Date().toISOString()`) is passed in as an explicit `now : String`
argument.  Dates are ISO `YYYY-MM-DD` strings; their chronological order
coincides with lexicographic order on their character lists, which is the
order used in the theorems below.
-/

set_option maxHeartbeats 1000000

namespace FleetUpdate

/-! ## Data model (the catalog schema produced by `transformToSchema`) -/

/-- Embeds the `aircraft_type` object of an aircraft record. -/
structure AircraftType where
  iata_code : Option String
  icao_code : Option String
  manufacturer : Option String
  model : Option String
  variant : Option String
  full_name : Option String
deriving DecidableEq

/-- Embeds the `operator` object of an aircraft record. -/
structure OperatorInfo where
  sub_fleet_code : Option String
  cabin_crew_employer : Option String
  cockpit_crew_employer : Option String
deriving DecidableEq

/-- Embeds the `classes` object produced by `parseCabinConfig`. -/
structure CabinClasses where
  first : Nat
  business : Nat
  premium_economy : Nat
  economy : Nat
deriving DecidableEq

/-- Embeds the `cabin` object of an aircraft record. -/
structure CabinInfo where
  physical_configuration : Option String
  saleable_configuration : Option String
  total_seats : Option Nat
  classes : CabinClasses
  freight_configuration : Option String
deriving DecidableEq

/-- Embeds the `connectivity` object of an aircraft record. -/
structure Connectivity where
  wifi : String
  wifi_provider : Option String
  satellite : Bool
deriving DecidableEq

/-- Embeds the `tracking` object of an aircraft record. -/
structure Tracking where
  first_seen : String
  last_seen : String
  total_flights : Nat
deriving DecidableEq

/-- Embeds the `metadata` object of an aircraft record. -/
structure RecordMetadata where
  created_at : String
  updated_at : String
deriving DecidableEq

/-- Embeds a history change entry as produced by `detectChanges`.
`old_value`/`new_value` are nullable strings (`none` embeds JS `null`). -/
structure ChangeEntry where
  timestamp : String
  property : String
  old_value : Option String
  new_value : Option String
  source : String
deriving DecidableEq

/-- Embeds a full aircraft record of the catalog. -/
structure Aircraft where
  registration : String
  icao24 : Option String
  aircraft_type : AircraftType
  operator : OperatorInfo
  cabin : CabinInfo
  connectivity : Connectivity
  status : String
  tracking : Tracking
  metadata : RecordMetadata
  history : List ChangeEntry
deriving DecidableEq

/-- Embeds the flat observation returned by `extractAircraftFromFlight`.
Its `registration` is a plain string because the extractor already
rejected flights whose registration is missing or empty (falsy). -/
structure RawObs where
  registration : String
  typeCode : Option String
  typeName : Option String
  subFleetCode : Option String
  ownerAirlineCode : Option String
  ownerAirlineName : Option String
  cabinCrewEmployer : Option String
  cockpitCrewEmployer : Option String
  wifiEnabled : Option String
  highSpeedWifi : Option String
  satelliteConnectivity : Option String
  physicalPaxConfiguration : Option String
deriving DecidableEq

/-! ## Cabin configuration parsing (`parseCabinConfig`, lines 146-166)

The JS code repeatedly applies the global regex `/([PFJCWSYM])(\d{2,3})/g`
to the configuration string and accumulates seat counts per cabin class.
`scanTokens` below is the character-level unfolding of that regex loop:
at each position it matches a class letter followed by two or three digits
(greedily preferring three, exactly as `\d{2,3}` does, since no pattern
follows the digit group), and otherwise advances one character. -/

/-- Character class of the regex `[PFJCWSYM]`. -/
def isClassLetter (c : Char) : Bool :=
  c = 'P' || c = 'F' || c = 'J' || c = 'C' || c = 'W' || c = 'S' || c = 'Y' || c = 'M'

/-- Numeric value of a decimal digit character, as `parseInt` sees it. -/
def digitVal (c : Char) : Nat := c.toNat - '0'.toNat

/-- Unfolds the `regex.exec` loop of `parseCabinConfig` into the list of
(class letter, parsed seat count) matches, in match order.  The `fuel`
argument only makes the recursion structural; every recursive call moves
to a strictly shorter list, so any `fuel ≥ l.length` gives the same
result (`scanAux_congr` below), and `scanTokens` instantiates the fuel
with the list length. -/
def scanAux : Nat → List Char → List (Char × Nat)
  | 0, _ => []
  | _, [] => []
  | fuel + 1, c :: rest =>
    if isClassLetter c then
      match rest with
      | d1 :: d2 :: rest2 =>
        if d1.isDigit && d2.isDigit then
          match rest2 with
          | d3 :: rest3 =>
            if d3.isDigit then
              (c, digitVal d1 * 100 + digitVal d2 * 10 + digitVal d3) :: scanAux fuel rest3
            else
              (c, digitVal d1 * 10 + digitVal d2) :: scanAux fuel rest2
          | [] => [(c, digitVal d1 * 10 + digitVal d2)]
        else scanAux fuel rest
      | _ => scanAux fuel rest
    else scanAux fuel rest

/-- The token scan of `parseCabinConfig`, with the fuel fully supplied. -/
def scanTokens (l : List Char) : List (Char × Nat) := scanAux l.length l

/-- The canonical cabin classes, targets of the `mapping` object. -/
inductive CabinClass where
  | first
  | business
  | premiumEconomy
  | economy
deriving DecidableEq

/-- Embeds the `mapping` object: P/F = First, J/C = Business,
W/S = Premium Economy, Y/M = Economy; anything else is unmapped. -/
def classMapping (c : Char) : Option CabinClass :=
  if c = 'P' || c = 'F' then some .first
  else if c = 'J' || c = 'C' then some .business
  else if c = 'W' || c = 'S' then some .premiumEconomy
  else if c = 'Y' || c = 'M' then some .economy
  else none

/-- All-zero cabin classes, the initial accumulator of `parseCabinConfig`. -/
def zeroClasses : CabinClasses := { first := 0, business := 0, premium_economy := 0, economy := 0 }

/-- One step of the accumulation `classes[classKey] += parseInt(match[2], 10)`
(guarded by `if (classKey)` in the source). -/
def addMatch (cl : CabinClasses) (p : Char × Nat) : CabinClasses :=
  match classMapping p.1 with
  | some .first => { cl with first := cl.first + p.2 }
  | some .business => { cl with business := cl.business + p.2 }
  | some .premiumEconomy => { cl with premium_economy := cl.premium_economy + p.2 }
  | some .economy => { cl with economy := cl.economy + p.2 }
  | none => cl

/-- Embeds `parseCabinConfig(config)`.  The JS guard `if (!config)` returns
all zeroes both for a `null` configuration and for the empty string. -/
def parseCabinConfig (config : Option String) : CabinClasses :=
  match config with
  | none => zeroClasses
  | some s => if s = "" then zeroClasses else (scanTokens s.data).foldl addMatch zeroClasses

/-- Embeds `Object.values(cabinClasses).reduce((a, b) => a + b, 0) || null`
from `transformToSchema` (line 199): the seat total, or `null` when 0. -/
def totalSeats (cl : CabinClasses) : Option Nat :=
  let s := cl.first + cl.business + cl.premium_economy + cl.economy
  if s = 0 then none else some s

/-! ## Connectivity and heuristics -/

/-- Embeds `convertWifi(wifiEnabled, highSpeedWifi)` (lines 168-172). -/
def convertWifi (wifiEnabled highSpeedWifi : Option String) : String :=
  if wifiEnabled ≠ some "Y" then "none"
  else if highSpeedWifi = some "Y" then "high-speed"
  else "low-speed"

/-- Substring test embedding `String.prototype.includes`. -/
def containsSub (s pat : String) : Bool := decide (pat.data <:+: s.data)

/-- Embeds `guessManufacturer(typeName)` (lines 227-233); the JS falsiness
guard `if (!typeName)` also rejects the empty string. -/
def guessManufacturer (typeName : Option String) : Option String :=
  match typeName with
  | none => none
  | some s =>
    if s = "" then none
    else if containsSub s.toUpper "AIRBUS" then some "Airbus"
    else if containsSub s.toUpper "BOEING" then some "Boeing"
    else if containsSub s.toUpper "EMBRAER" then some "Embraer"
    else none

/-- First alternative of `/A(\d{3})|(\d{3})/`: the letter `A` followed by
three digits, anchored at the head of the list. -/
def matchAModel : List Char → Option String
  | 'A' :: d1 :: d2 :: d3 :: _ =>
    if d1.isDigit && d2.isDigit && d3.isDigit then some (String.mk ['A', d1, d2, d3]) else none
  | _ => none

/-- Second alternative of `/A(\d{3})|(\d{3})/`: three bare digits anchored
at the head of the list. -/
def matchBareModel : List Char → Option String
  | d1 :: d2 :: d3 :: _ =>
    if d1.isDigit && d2.isDigit && d3.isDigit then some (String.mk [d1, d2, d3]) else none
  | _ => none

/-- Leftmost-match search for `/A(\d{3})|(\d{3})/`, trying the `A`-prefixed
alternative first at every position, as the regex engine does.  The JS
code returns `A${match[1]}` for the first alternative and the bare digits
for the second, which is exactly what the two matchers produce. -/
def guessModelScan : List Char → Option String
  | [] => none
  | c :: rest =>
    match matchAModel (c :: rest) with
    | some m => some m
    | none =>
      match matchBareModel (c :: rest) with
      | some m => some m
      | none => guessModelScan rest

/-- Embeds `guessModel(typeName)` (lines 235-240). -/
def guessModel (typeName : Option String) : Option String :=
  match typeName with
  | none => none
  | some s => if s = "" then none else guessModelScan s.data

/-- Greedy digit run, the `\d+` group of the variant regex. -/
def takeDigits : List Char → List Char
  | [] => []
  | c :: rest => if c.isDigit then c :: takeDigits rest else []

/-- Leftmost-match search for the variant regex (a hyphen followed by the
capture group `\d+`): finds the first hyphen followed by at least one
digit; the captured group is the maximal digit run after the hyphen. -/
def guessVariantScan : List Char → Option String
  | [] => none
  | c :: rest =>
    if c = '-' then
      match rest with
      | d :: _ => if d.isDigit then some (String.mk (takeDigits rest)) else guessVariantScan rest
      | [] => none
    else guessVariantScan rest

/-- Embeds `guessVariant(typeName)` (lines 242-246). -/
def guessVariant (typeName : Option String) : Option String :=
  match typeName with
  | none => none
  | some s => if s = "" then none else guessVariantScan s.data

/-! ## Schema transformation (`transformToSchema`, lines 174-225) -/

/-- Embeds `transformToSchema(raw, firstSeenDate)`.  The timestamps
`created_at`/`updated_at` come from `new Date().toISOString()` in the JS;
the clock is passed explicitly as `now`. -/
def transformToSchema (raw : RawObs) (firstSeenDate now : String) : Aircraft :=
  let cabinClasses := parseCabinConfig raw.physicalPaxConfiguration
  { registration := raw.registration
    icao24 := none
    aircraft_type :=
      { iata_code := raw.typeCode
        icao_code := none
        manufacturer := guessManufacturer raw.typeName
        model := guessModel raw.typeName
        variant := guessVariant raw.typeName
        full_name := raw.typeName }
    operator :=
      { sub_fleet_code := raw.subFleetCode
        cabin_crew_employer := raw.cabinCrewEmployer
        cockpit_crew_employer := raw.cockpitCrewEmployer }
    cabin :=
      { physical_configuration := raw.physicalPaxConfiguration
        saleable_configuration := none
        total_seats := totalSeats cabinClasses
        classes := cabinClasses
        freight_configuration := none }
    connectivity :=
      { wifi := convertWifi raw.wifiEnabled raw.highSpeedWifi
        wifi_provider := if raw.highSpeedWifi = some "Y" then some "Starlink" else none
        satellite := raw.satelliteConnectivity == some "Y" }
    status := "active"
    tracking := { first_seen := firstSeenDate, last_seen := firstSeenDate, total_flights := 1 }
    metadata := { created_at := now, updated_at := now }
    history := [] }

/-! ## Change detection and merge (`detectChanges`, `mergeAircraft`) -/

/-- Embeds `detectChanges(existing, newData, dateStr)` (lines 306-350):
one change entry per tracked property whose value differs, in the fixed
source order. -/
def detectChanges (existing newData : Aircraft) (dateStr : String) : List ChangeEntry :=
  (if existing.connectivity.wifi ≠ newData.connectivity.wifi then
    [{ timestamp := dateStr, property := "connectivity.wifi",
       old_value := some existing.connectivity.wifi,
       new_value := some newData.connectivity.wifi, source := "airline_api" }]
   else [])
  ++ (if existing.connectivity.wifi_provider ≠ newData.connectivity.wifi_provider then
    [{ timestamp := dateStr, property := "connectivity.wifi_provider",
       old_value := existing.connectivity.wifi_provider,
       new_value := newData.connectivity.wifi_provider, source := "airline_api" }]
   else [])
  ++ (if existing.cabin.physical_configuration ≠ newData.cabin.physical_configuration then
    [{ timestamp := dateStr, property := "cabin.physical_configuration",
       old_value := existing.cabin.physical_configuration,
       new_value := newData.cabin.physical_configuration, source := "airline_api" }]
   else [])
  ++ (if existing.operator.sub_fleet_code ≠ newData.operator.sub_fleet_code then
    [{ timestamp := dateStr, property := "operator.sub_fleet_code",
       old_value := existing.operator.sub_fleet_code,
       new_value := newData.operator.sub_fleet_code, source := "airline_api" }]
   else [])

/-- Embeds the history uniqueness key
`` `${timestamp}|${property}|${old_value}|${new_value}` `` built in
`mergeAircraft`; a JS `null` value prints as the string `null` in a
template literal, embedded by `Option.getD _ "null"`. -/
def changeKey (c : ChangeEntry) : String :=
  c.timestamp ++ "|" ++ c.property ++ "|" ++ c.old_value.getD "null" ++ "|"
    ++ c.new_value.getD "null"

/-- Embeds `mergeAircraft(existing, newData, changes, dateStr)`
(lines 352-378).  The clock for `updated_at` is the explicit `now`; the
JS `(total_flights || 0) + 1` guards a missing counter, which the total
model represents as 0. -/
def mergeAircraft (existing newData : Aircraft) (changes : List ChangeEntry)
    (dateStr now : String) : Aircraft :=
  let existingKeys := existing.history.map changeKey
  { existing with
    connectivity := newData.connectivity
    cabin := { existing.cabin with
      physical_configuration := newData.cabin.physical_configuration
      total_seats := newData.cabin.total_seats
      classes := newData.cabin.classes }
    operator := newData.operator
    aircraft_type := newData.aircraft_type
    tracking := { existing.tracking with
      last_seen := dateStr
      total_flights := existing.tracking.total_flights + 1 }
    metadata := { existing.metadata with updated_at := now }
    history :=
      if changes.length > 0 then
        existing.history ++ changes.filter (fun c => !existingKeys.contains (changeKey c))
      else existing.history }

/-- Embeds lines 573-576 of `main`, the SEEN branch of reconciliation:
only `last_seen` and `total_flights` advance. -/
def seenUpdate (existing : Aircraft) (dateStr : String) : Aircraft :=
  { existing with tracking := { existing.tracking with
      last_seen := dateStr
      total_flights := existing.tracking.total_flights + 1 } }

/-! ## Flights fetch (`fetchFlightsForDate`, lines 256-300) -/

/-- Embeds the `aircraft` sub-object of a flight leg as delivered by the
API; every field may be missing. -/
structure ApiAircraft where
  registration : Option String
  typeCode : Option String
  typeName : Option String
  subFleetCodeId : Option String
  ownerAirlineCode : Option String
  ownerAirlineName : Option String
  cabinCrewEmployer : Option String
  cockpitCrewEmployer : Option String
  wifiEnabled : Option String
  highSpeedWifi : Option String
  satelliteConnectivityOnBoard : Option String
  physicalPaxConfiguration : Option String
deriving DecidableEq

/-- Embeds one flight leg. -/
structure FlightLeg where
  aircraft : Option ApiAircraft
deriving DecidableEq

/-- Embeds one flight record of the API response. -/
structure Flight where
  flightLegs : List FlightLeg
deriving DecidableEq

/-- Embeds one successful `/flightstatus` response:
`response.operationalFlights || []` and `(response.page || {}).totalPages`,
where a missing `totalPages` is embedded as 0 (both are replaced by 1
through the falsiness default `|| 1`). -/
structure ApiResponse where
  operationalFlights : List Flight
  totalPages : Nat
deriving DecidableEq

/-- Embeds the `while (hasMore)` pagination loop of `fetchFlightsForDate`:
`api` maps a page number to the (successful) response for that page; the
result is the accumulated flights and the number of page requests made.
The `fuel` argument only makes the recursion structural: the loop itself
stops after at most 101 iterations (the `pageNumber > 100` break), so any
fuel above 101 — `fetchFlightsForDate` passes 102 — is never exhausted. -/
def fetchLoop (api : Nat → ApiResponse) : Nat → Nat → List Flight × Nat
  | 0, _ => ([], 0)
  | fuel + 1, pageNumber =>
    let response := api pageNumber
    let totalPages := if response.totalPages = 0 then 1 else response.totalPages
    let hasMore := pageNumber < totalPages - 1
    if pageNumber + 1 > 100 then (response.operationalFlights, 1)
    else if hasMore then
      let next := fetchLoop api fuel (pageNumber + 1)
      (response.operationalFlights ++ next.1, next.2 + 1)
    else (response.operationalFlights, 1)

/-- Embeds `fetchFlightsForDate` for one date, starting at page 0. -/
def fetchFlightsForDate (api : Nat → ApiResponse) : List Flight × Nat :=
  fetchLoop api 102 0

/-! ## API request retry and key rotation (`apiRequest`, lines 79-115) -/

/-- Outcome classes of one HTTP fetch, as `apiRequest` distinguishes them. -/
inductive HttpStatus where
  | ok
  | tooManyRequests
  | forbidden
  | otherFailure
deriving DecidableEq

/-- Embeds `rotateKey()`: round-robin over the configured key indices. -/
def rotateKey (numKeys i : Nat) : Nat := (i + 1) % numKeys

/-- Embeds `apiRequest` restricted to its retry/rotation skeleton.
`respond` maps the running attempt number to the HTTP outcome of that
fetch; the result is the list of key indices used for the successive
attempts and whether the call ended by throwing (`true`) rather than
returning a payload.  The rotation before a fresh request happens only
when more than one key is configured and `retryCount` is 0; on a 429/403
the key rotates and the request retries while `retryCount < numKeys - 1`.
The `fuel` argument only makes the recursion structural: the retry chain
has depth at most `numKeys - retryCount`, so the initial fuel `numKeys`
is never exhausted. -/
def apiRequestAux (numKeys : Nat) (respond : Nat → HttpStatus) :
    Nat → Nat → Nat → Nat → List Nat × Bool
  | 0, _, _, _ => ([], false)
  | fuel + 1, attempt, keyIndex, retryCount =>
    let k := if 1 < numKeys ∧ retryCount = 0 then rotateKey numKeys keyIndex else keyIndex
    match respond attempt with
    | .ok => ([k], false)
    | .tooManyRequests | .forbidden =>
      if retryCount < numKeys - 1 then
        let next := apiRequestAux numKeys respond fuel (attempt + 1) (rotateKey numKeys k)
          (retryCount + 1)
        (k :: next.1, next.2)
      else ([k], true)
    | .otherFailure => ([k], true)

/-- One top-level `apiRequest` call (`retryCount = 0`) starting from the
current key index. -/
def apiRequestRun (numKeys keyIndex : Nat) (respond : Nat → HttpStatus) : List Nat × Bool :=
  apiRequestAux numKeys respond numKeys 0 keyIndex 0

/-! ## Aircraft extraction (`extractAircraftFromFlight`, lines 121-144) -/

/-- Embeds JS `value || null`: the empty string is falsy and collapses to
`null`. -/
def orNull (v : Option String) : Option String :=
  match v with
  | some "" => none
  | some s => some s
  | none => none

/-- Embeds `extractAircraftFromFlight(flight, airlineCode)`: reads the
first leg's aircraft, rejects a missing or empty (falsy) registration,
rejects aircraft whose owner airline differs from the requested one, and
normalizes every other field through `|| null`. -/
def extractAircraftFromFlight (flight : Flight) (airlineCode : String) : Option RawObs :=
  match flight.flightLegs.head? with
  | none => none
  | some leg =>
    match leg.aircraft with
    | none => none
    | some ac =>
      match ac.registration with
      | none => none
      | some reg =>
        if reg = "" then none
        else if ac.ownerAirlineCode ≠ some airlineCode then none
        else some
          { registration := reg
            typeCode := orNull ac.typeCode
            typeName := orNull ac.typeName
            subFleetCode := orNull ac.subFleetCodeId
            ownerAirlineCode := orNull ac.ownerAirlineCode
            ownerAirlineName := orNull ac.ownerAirlineName
            cabinCrewEmployer := orNull ac.cabinCrewEmployer
            cockpitCrewEmployer := orNull ac.cockpitCrewEmployer
            wifiEnabled := orNull ac.wifiEnabled
            highSpeedWifi := orNull ac.highSpeedWifi
            satelliteConnectivity := orNull ac.satelliteConnectivityOnBoard
            physicalPaxConfiguration := orNull ac.physicalPaxConfiguration }

/-! ## The per-date processing loop of `main` (lines 519-580) -/

/-- The mutable run state of `main`: the in-memory aircraft list
(`catalog.aircraft`), the aggregated change list (each change annotated
with its registration, line 566) and the three counters. -/
structure ProcessState where
  catalog : List Aircraft
  allChanges : List (String × ChangeEntry)
  totalNew : Nat
  totalUpdated : Nat
  totalSeen : Nat
deriving DecidableEq

/-- In-place mutation of the record looked up by registration: since
`aircraftByReg` maps a registration to the very object stored in
`catalog.aircraft`, mutating it is embedded as rewriting the record(s)
carrying that registration in the list. -/
def replaceReg (cat : List Aircraft) (r : String) (a' : Aircraft) : List Aircraft :=
  cat.map (fun a => if a.registration = r then a' else a)

/-- Embeds one iteration of the `for (const [reg, rawData] of seenToday)`
loop (lines 543-579): transform, look up, then CREATE / UPDATE / SEEN,
mutating the catalog only when not in dry-run. -/
def processObs (dryRun : Bool) (dateStr now : String) (st : ProcessState) (o : RawObs) :
    ProcessState :=
  let newData := transformToSchema o dateStr now
  match st.catalog.find? (fun a => a.registration == o.registration) with
  | none =>
    { st with
      totalNew := st.totalNew + 1
      catalog := if dryRun then st.catalog else st.catalog ++ [newData] }
  | some existing =>
    let changes := detectChanges existing newData dateStr
    if changes.length > 0 then
      { st with
        totalUpdated := st.totalUpdated + 1
        allChanges := st.allChanges ++ changes.map (fun c => (o.registration, c))
        catalog := if dryRun then st.catalog
          else replaceReg st.catalog o.registration
            (mergeAircraft existing newData changes dateStr now) }
    else
      { st with
        totalSeen := st.totalSeen + 1
        catalog := if dryRun then st.catalog
          else replaceReg st.catalog o.registration (seenUpdate existing dateStr) }

/-- Embeds one `seenToday.set(registration, extracted)` step: a JS `Map`
keeps the original insertion position when a key is overwritten, so an
existing key is updated in place and a new key is appended. -/
def insertObs (acc : List RawObs) (o : RawObs) : List RawObs :=
  if acc.any (fun x => x.registration == o.registration) then
    acc.map (fun x => if x.registration = o.registration then o else x)
  else acc ++ [o]

/-- The deduplicated observation list for one date (`seenToday`), in map
iteration order.  The JS guard `if (extracted && extracted.registration)`
adds exactly the successfully extracted observations, whose registration
is non-empty by construction. -/
def dedupeByReg (obs : List RawObs) : List RawObs := obs.foldl insertObs []

/-- Embeds the processing of one date (lines 528-579): extract and
deduplicate the day's observations, then reconcile each against the
running state. -/
def processDate (dryRun : Bool) (airlineCode dateStr now : String) (st : ProcessState)
    (flights : List Flight) : ProcessState :=
  let seenToday := dedupeByReg
    (flights.filterMap (fun f => extractAircraftFromFlight f airlineCode))
  seenToday.foldl (processObs dryRun dateStr now) st

/-- Embeds the `for (const dateStr of datesToProcess)` loop: each date is
paired with the flights fetched for it. -/
def runDates (dryRun : Bool) (airlineCode now : String) (dates : List (String × List Flight))
    (st : ProcessState) : ProcessState :=
  dates.foldl (fun s p => processDate dryRun airlineCode p.1 now s p.2) st

/-! ## Catalog persistence (`main`, lines 625-654) -/

/-- Embeds the catalog's `airline` descriptor. -/
structure AirlineInfo where
  iata_code : String
  name : String
  country : String
deriving DecidableEq

/-- Embeds the persisted per-airline catalog document. -/
structure Catalog where
  schema_version : String
  airline : AirlineInfo
  generated_at : String
  aircraft_count : Nat
  aircraft : List Aircraft
deriving DecidableEq

/-- Embeds the changes-export document (`<code>-changes.json`). -/
structure ChangesExport where
  generated_at : String
  airline : String
  changes : List (String × ChangeEntry)
deriving DecidableEq

/-- Embeds the changes-export block (lines 625-633): the file is written
iff `--output-changes` was passed and at least one change was collected;
the condition does not consult the dry-run flag. -/
def exportChanges (outputChanges : Bool) (airlineCode now : String) (st : ProcessState) :
    Option ChangesExport :=
  if outputChanges && st.allChanges.length > 0 then
    some { generated_at := now, airline := airlineCode, changes := st.allChanges }
  else none

/-- The order imposed by the final `catalog.aircraft.sort(...)` comparator
(lines 640-644): ascending type IATA code with a missing code read as the
empty string, then ascending registration.  `localeCompare` on these
code strings is embedded as lexicographic string order. -/
def aircraftLE (a b : Aircraft) : Prop :=
  a.aircraft_type.iata_code.getD "" < b.aircraft_type.iata_code.getD ""
  ∨ (a.aircraft_type.iata_code.getD "" = b.aircraft_type.iata_code.getD ""
      ∧ a.registration ≤ b.registration)

instance : DecidableRel aircraftLE := fun a b => by unfold aircraftLE; infer_instance

instance : IsTotal Aircraft aircraftLE := ⟨by
  intro a b
  unfold aircraftLE
  rcases lt_trichotomy (a.aircraft_type.iata_code.getD "") (b.aircraft_type.iata_code.getD "")
    with h | h | h
  · exact Or.inl (Or.inl h)
  · rcases le_total a.registration b.registration with hr | hr
    · exact Or.inl (Or.inr ⟨h, hr⟩)
    · exact Or.inr (Or.inr ⟨h.symm, hr⟩)
  · exact Or.inr (Or.inl h)⟩

instance : IsTrans Aircraft aircraftLE := ⟨by
  intro a b c hab hbc
  unfold aircraftLE at hab hbc ⊢
  rcases hab with h1 | ⟨h1, r1⟩ <;> rcases hbc with h2 | ⟨h2, r2⟩
  · exact Or.inl (h1.trans h2)
  · exact Or.inl (lt_of_lt_of_eq h1 h2)
  · exact Or.inl (lt_of_eq_of_lt h1 h2)
  · exact Or.inr ⟨h1.trans h2, r1.trans r2⟩⟩

/-- Embeds the save block of `main` (lines 636-654): the catalog is
persisted iff not dry-run and at least one aircraft was created, updated
or merely re-seen; on save `generated_at` is refreshed, `aircraft_count`
is recomputed from the list and the aircraft list is sorted by the
comparator.  `none` means no file is written. -/
def finalSave (dryRun : Bool) (totalNew totalUpdated totalSeen : Nat) (catalog : Catalog)
    (now : String) : Option Catalog :=
  if !dryRun && (totalNew > 0 || totalUpdated > 0 || totalSeen > 0) then
    some { catalog with
      generated_at := now
      aircraft_count := catalog.aircraft.length
      aircraft := List.insertionSort aircraftLE catalog.aircraft }
  else none

/-! ## Cabin-configuration tokens (for the order-independence statement) -/

/-- A well-formed cabin token: one class letter followed by its digits. -/
structure CabinToken where
  letter : Char
  digits : List Char
deriving DecidableEq

/-- Well-formedness of a cabin token: a class letter followed by exactly
two or three decimal digits, the shape matched by the cabin regex. -/
def tokenWF (t : CabinToken) : Prop :=
  isClassLetter t.letter = true ∧ (∀ c ∈ t.digits, c.isDigit = true)
    ∧ (t.digits.length = 2 ∨ t.digits.length = 3)

instance : DecidablePred tokenWF := fun t => by unfold tokenWF; infer_instance

/-- The characters of one token. -/
def renderToken (t : CabinToken) : List Char := t.letter :: t.digits

/-- The configuration string assembled from a token list. -/
def renderTokens (ts : List CabinToken) : String :=
  String.mk (ts.map renderToken).flatten

/-- The seat count denoted by a token's digits, as `parseInt` reads them. -/
def tokenVal (t : CabinToken) : Nat :=
  t.digits.foldl (fun a c => a * 10 + digitVal c) 0

/-! ## Concrete sample data used by witnesses and counterexamples -/

/-- A raw observation with every optional field absent. -/
def rawBase : RawObs :=
  { registration := "F-HTYA", typeCode := none, typeName := none, subFleetCode := none
    ownerAirlineCode := some "AF", ownerAirlineName := none, cabinCrewEmployer := none
    cockpitCrewEmployer := none, wifiEnabled := none, highSpeedWifi := none
    satelliteConnectivity := none, physicalPaxConfiguration := none }

/-- Wifi disabled but high-speed flag affirmative. -/
def rawWifiOffHighSpeed : RawObs :=
  { rawBase with wifiEnabled := some "N", highSpeedWifi := some "Y" }

/-- Wifi enabled and high-speed. -/
def rawWifiOnHighSpeed : RawObs :=
  { rawBase with wifiEnabled := some "Y", highSpeedWifi := some "Y" }

/-- Wifi enabled, not high-speed. -/
def rawWifiOnLowSpeed : RawObs :=
  { rawBase with wifiEnabled := some "Y", highSpeedWifi := some "N" }

/-- Observation carrying the example cabin configuration of the spec. -/
def rawCabinExample : RawObs :=
  { rawBase with physicalPaxConfiguration := some "J034W024Y266" }

/-- Observation with an unparseable cabin configuration. -/
def rawCabinGarbage : RawObs :=
  { rawBase with physicalPaxConfiguration := some "garbage" }

/-- A concrete existing catalog record, last seen on 2026-02-15. -/
def sampleAircraft : Aircraft :=
  { registration := "PH-BHA", icao24 := none
    aircraft_type :=
      { iata_code := some "781", icao_code := none, manufacturer := some "Boeing"
        model := some "787", variant := some "10", full_name := some "787-10" }
    operator :=
      { sub_fleet_code := some "KL781", cabin_crew_employer := some "KL"
        cockpit_crew_employer := some "KL" }
    cabin :=
      { physical_configuration := some "C038W028M252", saleable_configuration := none
        total_seats := some 318, classes := ⟨0, 38, 28, 252⟩, freight_configuration := none }
    connectivity := { wifi := "low-speed", wifi_provider := none, satellite := false }
    status := "active"
    tracking := { first_seen := "2026-01-10", last_seen := "2026-02-15", total_flights := 5 }
    metadata :=
      { created_at := "2026-01-10T08:00:00.000Z", updated_at := "2026-02-15T08:00:00.000Z" }
    history := [] }

/-- A second concrete record with a smaller sort key. -/
def sampleAircraftB : Aircraft :=
  { sampleAircraft with
    registration := "PH-AKA"
    aircraft_type := { sampleAircraft.aircraft_type with iata_code := some "332" } }

/-- A one-entry catalog. -/
def sampleCatalog : Catalog :=
  { schema_version := "1.0.0"
    airline := { iata_code := "KL", name := "KLM Royal Dutch Airlines", country := "Netherlands" }
    generated_at := "2026-02-15T00:00:00.000Z"
    aircraft_count := 1
    aircraft := [sampleAircraft] }

/-- A concrete change entry. -/
def sampleChange : ChangeEntry :=
  { timestamp := "2026-02-15", property := "connectivity.wifi", old_value := some "none"
    new_value := some "low-speed", source := "airline_api" }

/-- The raw API aircraft sub-object of the sample flight below. -/
def sampleApiAircraft : ApiAircraft :=
  { registration := some "PH-BHA", typeCode := some "781", typeName := none
    subFleetCodeId := some "KL781", ownerAirlineCode := some "KL", ownerAirlineName := none
    cabinCrewEmployer := some "KL", cockpitCrewEmployer := some "KL"
    wifiEnabled := some "N", highSpeedWifi := none, satelliteConnectivityOnBoard := none
    physicalPaxConfiguration := some "C038W028M252" }

/-- A flight whose first leg carries the KL-owned aircraft `PH-BHA`. -/
def sampleFlight : Flight :=
  { flightLegs := [{ aircraft := some sampleApiAircraft }] }

/-- An existing record as the transformer would have produced it the day
before re-observation. -/
def seenExisting : Aircraft := transformToSchema rawWifiOnLowSpeed "2026-02-14" "T0"

/-- A one-aircraft run state holding `seenExisting`. -/
def seenState : ProcessState :=
  { catalog := [seenExisting], allChanges := [], totalNew := 0, totalUpdated := 0, totalSeen := 0 }

/-- A one-aircraft run state holding `sampleAircraft`. -/
def sampleState : ProcessState :=
  { catalog := [sampleAircraft], allChanges := [], totalNew := 0, totalUpdated := 0,
    totalSeen := 0 }

/-- A run state that has already collected one change. -/
def sampleStateChanges : ProcessState :=
  { catalog := [], allChanges := [("PH-BHA", sampleChange)], totalNew := 0, totalUpdated := 1,
    totalSeen := 0 }

/-- The tokens of the spec's example configuration `J034W024Y266`. -/
def tokensExampleA : List CabinToken :=
  [{ letter := 'J', digits := ['0', '3', '4'] },
   { letter := 'W', digits := ['0', '2', '4'] },
   { letter := 'Y', digits := ['2', '6', '6'] }]

/-- A permutation of `tokensExampleA` (configuration `Y266J034W024`). -/
def tokensExampleB : List CabinToken :=
  [{ letter := 'Y', digits := ['2', '6', '6'] },
   { letter := 'J', digits := ['0', '3', '4'] },
   { letter := 'W', digits := ['0', '2', '4'] }]

/-- The per-class contribution of one regex match. -/
def classWeight (k : CabinClass) (p : Char × Nat) : Nat :=
  if classMapping p.1 = some k then p.2 else 0

/-! ## Helper lemmas -/

/-- Scanning the empty character list yields no matches at any fuel. -/
theorem scanAux_nil (fuel : Nat) : scanAux fuel [] = [] := by
  cases fuel <;> rfl

/-- The fuel of `scanAux` is irrelevant as long as it covers the list
length: the scan consumes at least one character per fuel unit. -/
theorem scanAux_congr : ∀ (fuel₁ : Nat) (l : List Char) (fuel₂ : Nat),
    l.length ≤ fuel₁ → l.length ≤ fuel₂ → scanAux fuel₁ l = scanAux fuel₂ l := by
  intro fuel₁
  induction fuel₁ with
  | zero =>
    intro l fuel₂ h1 _
    have hl : l = [] := List.length_eq_zero.mp (by omega)
    subst hl
    rw [scanAux_nil, scanAux_nil]
  | succ f ih =>
    intro l fuel₂ h1 h2
    rcases l with _ | ⟨c, rest⟩
    · rw [scanAux_nil, scanAux_nil]
    rcases fuel₂ with _ | f₂
    · simp at h2
    simp only [List.length_cons] at h1 h2
    simp only [scanAux]
    by_cases hc : isClassLetter c
    · simp only [if_pos hc]
      rcases rest with _ | ⟨d1, rest'⟩
      · show scanAux f [] = scanAux f₂ []
        rw [scanAux_nil, scanAux_nil]
      rcases rest' with _ | ⟨d2, rest2⟩
      · exact ih [d1] f₂ (by simp at h1 ⊢; omega) (by simp at h2 ⊢; omega)
      simp only [List.length_cons] at h1 h2
      by_cases hd : (d1.isDigit && d2.isDigit) = true
      · simp only [if_pos hd]
        rcases rest2 with _ | ⟨d3, rest3⟩
        · rfl
        simp only [List.length_cons] at h1 h2
        by_cases h3 : d3.isDigit = true
        · simp only [if_pos h3]
          rw [ih rest3 f₂ (by omega) (by omega)]
        · simp only [if_neg h3]
          rw [ih (d3 :: rest3) f₂ (by simp; omega) (by simp; omega)]
      · simp only [if_neg hd]
        exact ih (d1 :: d2 :: rest2) f₂ (by simp; omega) (by simp; omega)
    · simp only [if_neg hc]
      exact ih rest f₂ (by omega) (by omega)

/-- One unfolding step of the token scan at positive fuel. -/
theorem scanAux_step (fuel : Nat) (c : Char) (rest : List Char) :
    scanAux (fuel + 1) (c :: rest)
      = if isClassLetter c then
          match rest with
          | d1 :: d2 :: rest2 =>
            if d1.isDigit && d2.isDigit then
              match rest2 with
              | d3 :: rest3 =>
                if d3.isDigit then
                  (c, digitVal d1 * 100 + digitVal d2 * 10 + digitVal d3) :: scanAux fuel rest3
                else (c, digitVal d1 * 10 + digitVal d2) :: scanAux fuel rest2
              | [] => [(c, digitVal d1 * 10 + digitVal d2)]
            else scanAux fuel rest
          | _ => scanAux fuel rest
        else scanAux fuel rest := by
  rcases rest with _ | ⟨d1, rr⟩
  · rfl
  rcases rr with _ | ⟨d2, rr2⟩
  · rfl
  rcases rr2 with _ | ⟨d3, rr3⟩
  · rfl
  · rfl

/-- A cabin class letter is never a digit. -/
theorem isClassLetter_not_digit (c : Char) (h : isClassLetter c = true) : c.isDigit = false := by
  have hd : c = 'P' ∨ c = 'F' ∨ c = 'J' ∨ c = 'C' ∨ c = 'W' ∨ c = 'S' ∨ c = 'Y' ∨ c = 'M' := by
    simpa [isClassLetter, or_assoc] using h
  rcases hd with h | h | h | h | h | h | h | h <;> subst h <;> decide

/-- Scanning one well-formed token followed by a remainder that is empty
or starts with a class letter yields that token's match and continues on
the remainder. -/
theorem scanTokens_token (t : CabinToken) (rest : List Char) (hwf : tokenWF t)
    (hrest : rest = [] ∨ ∃ ch rest', rest = ch :: rest' ∧ isClassLetter ch = true) :
    scanTokens (renderToken t ++ rest) = (t.letter, tokenVal t) :: scanTokens rest := by
  obtain ⟨hletter, hdig, hlen⟩ := hwf
  rcases hlen with h2 | h3
  · obtain ⟨d1, d2, hd⟩ := List.length_eq_two.mp h2
    have hd1 : d1.isDigit = true := hdig d1 (by rw [hd]; simp)
    have hd2 : d2.isDigit = true := hdig d2 (by rw [hd]; simp)
    have hval : tokenVal t = digitVal d1 * 10 + digitVal d2 := by
      simp only [tokenVal, hd, List.foldl]
      omega
    rcases hrest with hr | ⟨ch, rest', hr, hcls⟩
    · subst hr
      rw [renderToken, hd]
      simp only [List.cons_append, List.nil_append, List.append_nil]
      show scanAux (1 + 1 + 1) (t.letter :: d1 :: d2 :: []) = _
      rw [scanAux_step, if_pos hletter]
      simp [hd1, hd2, hval, scanAux_nil]
      rfl
    · subst hr
      have hch : ch.isDigit = false := isClassLetter_not_digit ch hcls
      rw [renderToken, hd]
      simp only [List.cons_append, List.nil_append]
      show scanAux (rest'.length + 1 + 1 + 1 + 1) (t.letter :: d1 :: d2 :: ch :: rest') = _
      rw [scanAux_step, if_pos hletter]
      simp [hd1, hd2, hch, hval]
      exact scanAux_congr (rest'.length + 1 + 1 + 1) (ch :: rest') (ch :: rest').length
        (by simp) (Nat.le_refl _)
  · obtain ⟨d1, d2, d3, hd⟩ := List.length_eq_three.mp h3
    have hd1 : d1.isDigit = true := hdig d1 (by rw [hd]; simp)
    have hd2 : d2.isDigit = true := hdig d2 (by rw [hd]; simp)
    have hd3 : d3.isDigit = true := hdig d3 (by rw [hd]; simp)
    have hval : tokenVal t = digitVal d1 * 100 + digitVal d2 * 10 + digitVal d3 := by
      simp only [tokenVal, hd, List.foldl]
      omega
    rw [renderToken, hd]
    simp only [List.cons_append, List.nil_append]
    show scanAux (rest.length + 1 + 1 + 1 + 1) (t.letter :: d1 :: d2 :: d3 :: rest) = _
    rw [scanAux_step, if_pos hletter]
    simp [hd1, hd2, hd3, hval]
    exact scanAux_congr (rest.length + 1 + 1 + 1) rest rest.length (by omega) (Nat.le_refl _)

/-- Scanning the concatenation of well-formed tokens recovers exactly the
token list with its values. -/
theorem scanTokens_concat : ∀ (ts : List CabinToken), (∀ t ∈ ts, tokenWF t) →
    scanTokens (ts.map renderToken).flatten = ts.map (fun t => (t.letter, tokenVal t)) := by
  intro ts
  induction ts with
  | nil => intro _; rfl
  | cons t ts' ih =>
    intro hwf
    rw [List.map_cons, List.flatten_cons,
      scanTokens_token t _ (hwf t (List.mem_cons_self t ts')) ?side,
      ih (fun x hx => hwf x (List.mem_cons_of_mem t hx)), List.map_cons]
    case side =>
      rcases ts' with _ | ⟨t1, ts''⟩
      · left; rfl
      · right
        refine ⟨t1.letter, t1.digits ++ ((ts''.map renderToken)).flatten, ?_, ?_⟩
        · simp [renderToken]
        · exact (hwf t1 (by simp)).1

/-- The match accumulation computes, per class, the sum of the weights. -/
theorem foldl_addMatch : ∀ (ps : List (Char × Nat)) (acc : CabinClasses),
    ps.foldl addMatch acc
      = { first := acc.first + (ps.map (classWeight .first)).sum
          business := acc.business + (ps.map (classWeight .business)).sum
          premium_economy := acc.premium_economy + (ps.map (classWeight .premiumEconomy)).sum
          economy := acc.economy + (ps.map (classWeight .economy)).sum } := by
  intro ps
  induction ps with
  | nil => intro acc; simp
  | cons p ps ih =>
    intro acc
    rw [List.foldl_cons, ih (addMatch acc p)]
    rcases hm : classMapping p.1 with _ | k
    · simp [addMatch, hm, classWeight]
    · rcases k <;> simp [addMatch, hm, classWeight] <;> omega

/-- Permuting the matches does not change the accumulated classes. -/
theorem classes_perm (ps₁ ps₂ : List (Char × Nat)) (h : ps₁.Perm ps₂) :
    ps₁.foldl addMatch zeroClasses = ps₂.foldl addMatch zeroClasses := by
  rw [foldl_addMatch, foldl_addMatch]
  rw [(h.map (classWeight .first)).sum_eq, (h.map (classWeight .business)).sum_eq,
    (h.map (classWeight .premiumEconomy)).sum_eq, (h.map (classWeight .economy)).sum_eq]

/-- Parsing the configuration string assembled from a non-empty list of
well-formed tokens accumulates exactly those tokens' matches. -/
theorem parseCabinConfig_tokens (ts : List CabinToken) (hne : ts ≠ [])
    (hwf : ∀ t ∈ ts, tokenWF t) :
    parseCabinConfig (some (renderTokens ts))
      = (ts.map (fun t => (t.letter, tokenVal t))).foldl addMatch zeroClasses := by
  rcases ts with _ | ⟨t0, ts'⟩
  · exact absurd rfl hne
  show (if String.mk ((t0 :: ts').map renderToken).flatten = "" then zeroClasses
    else (scanTokens (String.mk ((t0 :: ts').map renderToken).flatten).data).foldl
      addMatch zeroClasses) = _
  have hflat : ((t0 :: ts').map renderToken).flatten
      = t0.letter :: (t0.digits ++ (ts'.map renderToken).flatten) := by
    simp [renderToken]
  rw [if_neg (by
    rw [hflat]
    intro hcontra
    have hdata : t0.letter :: (t0.digits ++ (ts'.map renderToken).flatten) = ([] : List Char) :=
      congrArg String.data hcontra
    exact absurd hdata (by simp))]
  rw [show (String.mk ((t0 :: ts').map renderToken).flatten).data
    = ((t0 :: ts').map renderToken).flatten from rfl]
  rw [scanTokens_concat _ hwf]

/-- The connectivity object produced by the transformer, unfolded. -/
theorem transform_connectivity (raw : RawObs) (d now : String) :
    (transformToSchema raw d now).connectivity
      = { wifi := convertWifi raw.wifiEnabled raw.highSpeedWifi
          wifi_provider := if raw.highSpeedWifi = some "Y" then some "Starlink" else none
          satellite := raw.satelliteConnectivity == some "Y" } := rfl

/-- The history produced by a merge, unfolded. -/
theorem mergeAircraft_history (e n : Aircraft) (cs : List ChangeEntry) (d t : String) :
    (mergeAircraft e n cs d t).history
      = if cs.length > 0 then
          e.history ++ cs.filter (fun c => !(e.history.map changeKey).contains (changeKey c))
        else e.history := rfl

/-- Appending changes whose keys are all already present is a no-op. -/
theorem history_dedup_absorb (h cs : List ChangeEntry)
    (hmem : ∀ c ∈ cs, changeKey c ∈ h.map changeKey) :
    h ++ cs.filter (fun c => !(h.map changeKey).contains (changeKey c)) = h := by
  have hnil : cs.filter (fun c => !(h.map changeKey).contains (changeKey c)) = [] := by
    rw [List.filter_eq_nil_iff]
    intro c hc
    simp [List.contains, List.elem_iff, hmem c hc]
  rw [hnil, List.append_nil]

/-- After one merge of `cs`, every change of `cs` has its key in history. -/
theorem mem_keys_after_dedup (h cs : List ChangeEntry) (c : ChangeEntry) (hc : c ∈ cs) :
    changeKey c
      ∈ (h ++ cs.filter (fun x => !(h.map changeKey).contains (changeKey x))).map changeKey := by
  rw [List.map_append]
  by_cases hk : changeKey c ∈ h.map changeKey
  · exact List.mem_append_left _ hk
  · refine List.mem_append_right _ (List.mem_map.mpr ⟨c, List.mem_filter.mpr ⟨hc, ?_⟩, rfl⟩)
    simp [List.contains, List.elem_iff, hk]

/-! ## Claim C6 — cabin parsing -/

/-- C6: cabin parsing of the transformed record: the spec's example
configuration yields exactly the documented classes and seat total; a
null, empty or unparseable configuration (one in which the regex finds
no match) yields all-zero classes with `total_seats` absent; and the
parse of a configuration assembled from well-formed tokens is invariant
under permutation of the tokens. -/
theorem c6_cabin_parsing :
    (∀ (raw : RawObs) (d now : String),
        raw.physicalPaxConfiguration = some "J034W024Y266" →
        (transformToSchema raw d now).cabin.classes
            = { first := 0, business := 34, premium_economy := 24, economy := 266 }
          ∧ (transformToSchema raw d now).cabin.total_seats = some 324)
    ∧ (∀ (raw : RawObs) (d now : String),
        (raw.physicalPaxConfiguration = none ∨ raw.physicalPaxConfiguration = some ""
          ∨ (∃ s, raw.physicalPaxConfiguration = some s ∧ scanTokens s.data = [])) →
        (transformToSchema raw d now).cabin.classes = zeroClasses
          ∧ (transformToSchema raw d now).cabin.total_seats = none)
    ∧ (∀ ts₁ ts₂ : List CabinToken, (∀ t ∈ ts₁, tokenWF t) → ts₁.Perm ts₂ →
        parseCabinConfig (some (renderTokens ts₁))
          = parseCabinConfig (some (renderTokens ts₂))) := by
  refine ⟨?_, ?_, ?_⟩
  · intro raw d now h
    constructor
    · show parseCabinConfig raw.physicalPaxConfiguration = _
      rw [h]; decide
    · show totalSeats (parseCabinConfig raw.physicalPaxConfiguration) = _
      rw [h]; decide
  · intro raw d now h
    have hz : parseCabinConfig raw.physicalPaxConfiguration = zeroClasses := by
      rcases h with h | h | ⟨s, h, hscan⟩
      · rw [h]; rfl
      · rw [h]; rfl
      · rw [h]
        by_cases hs : s = ""
        · simp [parseCabinConfig, hs]
        · simp [parseCabinConfig, hs, hscan]
    constructor
    · show parseCabinConfig raw.physicalPaxConfiguration = _
      exact hz
    · show totalSeats (parseCabinConfig raw.physicalPaxConfiguration) = _
      rw [hz]; rfl
  · intro ts₁ ts₂ hwf hperm
    have hwf₂ : ∀ t ∈ ts₂, tokenWF t := fun t ht => hwf t (hperm.mem_iff.mpr ht)
    rcases ts₁ with _ | ⟨t0, ts'⟩
    · have h2 : ts₂ = [] := List.perm_nil.mp hperm.symm
      subst h2; rfl
    · have hne₂ : ts₂ ≠ [] := by
        intro h; subst h
        exact absurd (List.perm_nil.mp hperm) (by simp)
      rw [parseCabinConfig_tokens _ (by simp) hwf,
        parseCabinConfig_tokens _ hne₂ hwf₂]
      exact classes_perm _ _ (hperm.map _)

/-- C6 witness: the three parts applied to the example configuration, a
garbage configuration, and a concrete token permutation. -/
theorem c6_cabin_parsing_witness :
    (rawCabinExample.physicalPaxConfiguration = some "J034W024Y266"
      ∧ (transformToSchema rawCabinExample "2026-02-15" "T").cabin.classes
          = { first := 0, business := 34, premium_economy := 24, economy := 266 }
      ∧ (transformToSchema rawCabinExample "2026-02-15" "T").cabin.total_seats = some 324)
    ∧ ((∃ s, rawCabinGarbage.physicalPaxConfiguration = some s ∧ scanTokens s.data = [])
      ∧ (transformToSchema rawCabinGarbage "2026-02-15" "T").cabin.classes = zeroClasses
      ∧ (transformToSchema rawCabinGarbage "2026-02-15" "T").cabin.total_seats = none)
    ∧ ((∀ t ∈ tokensExampleA, tokenWF t) ∧ tokensExampleA.Perm tokensExampleB
      ∧ parseCabinConfig (some (renderTokens tokensExampleA))
          = parseCabinConfig (some (renderTokens tokensExampleB))) :=
  ⟨⟨rfl, c6_cabin_parsing.1 rawCabinExample "2026-02-15" "T" rfl⟩,
   ⟨⟨"garbage", rfl, by decide⟩,
    c6_cabin_parsing.2.1 rawCabinGarbage "2026-02-15" "T"
      (Or.inr (Or.inr ⟨"garbage", rfl, by decide⟩))⟩,
   ⟨by decide, by decide,
    c6_cabin_parsing.2.2 tokensExampleA tokensExampleB (by decide) (by decide)⟩⟩

/-! ## Claim C1 — connectivity classification -/

/-- C1 counterexample: for an observation with wifi-enabled ≠ 'Y' but
high-speed = 'Y', the transformed record has wifi = "none" yet
wifi_provider = "Starlink", not absent as the claim states — the provider
field depends only on the high-speed flag (line 206). -/
theorem c1_counterexample :
    (transformToSchema rawWifiOffHighSpeed "2026-02-15" "T").connectivity.wifi = "none"
    ∧ (transformToSchema rawWifiOffHighSpeed "2026-02-15" "T").connectivity.wifi_provider
        = some "Starlink"
    ∧ ¬ (transformToSchema rawWifiOffHighSpeed "2026-02-15" "T").connectivity.wifi_provider
        = none := by
  refine ⟨rfl, rfl, by decide⟩

/-- C1 (amended): if wifi-enabled is not 'Y' the record has wifi = "none"
regardless of high-speed, and wifi_provider is "Starlink" exactly when
high-speed is 'Y' (independently of wifi-enabled), absent otherwise;
wifi-enabled and high-speed both 'Y' give wifi = "high-speed" with
provider "Starlink"; wifi-enabled 'Y' without high-speed gives
wifi = "low-speed" with provider absent. -/
theorem c1_connectivity (raw : RawObs) (d now : String) :
    (raw.wifiEnabled ≠ some "Y" →
        (transformToSchema raw d now).connectivity.wifi = "none")
    ∧ (raw.highSpeedWifi = some "Y" →
        (transformToSchema raw d now).connectivity.wifi_provider = some "Starlink")
    ∧ (raw.highSpeedWifi ≠ some "Y" →
        (transformToSchema raw d now).connectivity.wifi_provider = none)
    ∧ (raw.wifiEnabled = some "Y" → raw.highSpeedWifi = some "Y" →
        (transformToSchema raw d now).connectivity.wifi = "high-speed")
    ∧ (raw.wifiEnabled = some "Y" → raw.highSpeedWifi ≠ some "Y" →
        (transformToSchema raw d now).connectivity.wifi = "low-speed") := by
  refine ⟨?_, ?_, ?_, ?_, ?_⟩
  · intro h
    simp [transform_connectivity, convertWifi, h]
  · intro h
    simp [transform_connectivity, h]
  · intro h
    simp [transform_connectivity, h]
  · intro h1 h2
    simp [transform_connectivity, convertWifi, h1, h2]
  · intro h1 h2
    simp [transform_connectivity, convertWifi, h1, h2]

/-- C1 witness: the amended theorem applied at the three flag combinations. -/
theorem c1_connectivity_witness :
    (rawWifiOffHighSpeed.wifiEnabled ≠ some "Y"
      ∧ (transformToSchema rawWifiOffHighSpeed "2026-02-15" "T").connectivity.wifi = "none")
    ∧ (rawWifiOnHighSpeed.wifiEnabled = some "Y" ∧ rawWifiOnHighSpeed.highSpeedWifi = some "Y"
      ∧ (transformToSchema rawWifiOnHighSpeed "2026-02-15" "T").connectivity.wifi = "high-speed"
      ∧ (transformToSchema rawWifiOnHighSpeed "2026-02-15" "T").connectivity.wifi_provider
          = some "Starlink")
    ∧ (rawWifiOnLowSpeed.wifiEnabled = some "Y" ∧ rawWifiOnLowSpeed.highSpeedWifi ≠ some "Y"
      ∧ (transformToSchema rawWifiOnLowSpeed "2026-02-15" "T").connectivity.wifi = "low-speed"
      ∧ (transformToSchema rawWifiOnLowSpeed "2026-02-15" "T").connectivity.wifi_provider
          = none) :=
  ⟨⟨by decide, (c1_connectivity rawWifiOffHighSpeed "2026-02-15" "T").1 (by decide)⟩,
   ⟨by decide, by decide,
    (c1_connectivity rawWifiOnHighSpeed "2026-02-15" "T").2.2.2.1 (by decide) (by decide),
    (c1_connectivity rawWifiOnHighSpeed "2026-02-15" "T").2.1 (by decide)⟩,
   ⟨by decide, by decide,
    (c1_connectivity rawWifiOnLowSpeed "2026-02-15" "T").2.2.2.2 (by decide) (by decide),
    (c1_connectivity rawWifiOnLowSpeed "2026-02-15" "T").2.2.1 (by decide)⟩⟩

/-! ## Claim C2 — history idempotence under re-merge -/

/-- C2: re-applying the identical change set to an already merged record
leaves the history unchanged: every change's uniqueness key is already
present after the first merge, so the dedup filter drops all of them. -/
theorem c2_history_idempotent (e n₁ n₂ : Aircraft) (cs : List ChangeEntry)
    (d₁ d₂ t₁ t₂ : String) :
    (mergeAircraft (mergeAircraft e n₁ cs d₁ t₁) n₂ cs d₂ t₂).history
      = (mergeAircraft e n₁ cs d₁ t₁).history := by
  rcases cs with _ | ⟨c0, cs'⟩
  · simp [mergeAircraft_history]
  · have hlen : (c0 :: cs').length > 0 := by simp
    have hM : (mergeAircraft e n₁ (c0 :: cs') d₁ t₁).history
        = e.history ++ (c0 :: cs').filter
            (fun c => !(e.history.map changeKey).contains (changeKey c)) := by
      rw [mergeAircraft_history, if_pos hlen]
    rw [mergeAircraft_history, if_pos hlen]
    apply history_dedup_absorb
    intro c hc
    rw [hM]
    exact mem_keys_after_dedup _ _ c hc

/-! ## Claim C3 — monotonicity of a reconcile step -/

/-- C3 counterexample: both reconcile step kinds assign `last_seen`
unconditionally (lines 360 and 574), so reconciling an observation dated
before the record's current `last_seen` (possible with `--date`)
decreases it. -/
theorem c3_counterexample :
    (seenUpdate sampleAircraft "2026-01-01").tracking.last_seen.data
        < sampleAircraft.tracking.last_seen.data
    ∧ (mergeAircraft sampleAircraft sampleAircraft [] "2026-01-01" "T").tracking.last_seen.data
        < sampleAircraft.tracking.last_seen.data := by
  refine ⟨by decide, by decide⟩

/-- C3 (amended): every reconcile step (merge or seen) preserves
`first_seen` and `created_at`, keeps the already recorded history entries
unaltered (the merge only ever appends), sets `last_seen` to the
observation date — hence never decreases it provided the observation date
is not earlier than the current `last_seen` — and strictly increases
`total_flights`. -/
theorem c3_step_monotonic (existing newData : Aircraft) (cs : List ChangeEntry) (d t : String)
    (hd : existing.tracking.last_seen.data ≤ d.data) :
    ((mergeAircraft existing newData cs d t).tracking.first_seen
        = existing.tracking.first_seen
      ∧ (mergeAircraft existing newData cs d t).metadata.created_at
          = existing.metadata.created_at
      ∧ (∃ tl, (mergeAircraft existing newData cs d t).history = existing.history ++ tl)
      ∧ (mergeAircraft existing newData cs d t).tracking.last_seen = d
      ∧ existing.tracking.last_seen.data
          ≤ (mergeAircraft existing newData cs d t).tracking.last_seen.data
      ∧ existing.tracking.total_flights
          < (mergeAircraft existing newData cs d t).tracking.total_flights)
    ∧ ((seenUpdate existing d).tracking.first_seen = existing.tracking.first_seen
      ∧ (seenUpdate existing d).metadata.created_at = existing.metadata.created_at
      ∧ (seenUpdate existing d).history = existing.history
      ∧ (seenUpdate existing d).tracking.last_seen = d
      ∧ existing.tracking.last_seen.data ≤ (seenUpdate existing d).tracking.last_seen.data
      ∧ existing.tracking.total_flights < (seenUpdate existing d).tracking.total_flights) := by
  refine ⟨⟨rfl, rfl, ?_, rfl, hd, Nat.lt_succ_self _⟩,
    rfl, rfl, rfl, rfl, hd, Nat.lt_succ_self _⟩
  rw [mergeAircraft_history]
  by_cases hcs : cs.length > 0
  · exact ⟨_, by rw [if_pos hcs]⟩
  · exact ⟨[], by rw [if_neg hcs, List.append_nil]⟩

/-- C3 witness: the amended theorem applied to the sample record with an
observation date after its current `last_seen`. -/
theorem c3_step_monotonic_witness :
    sampleAircraft.tracking.last_seen.data ≤ ("2026-03-01" : String).data
    ∧ (((mergeAircraft sampleAircraft sampleAircraft [] "2026-03-01" "T").tracking.first_seen
          = sampleAircraft.tracking.first_seen
        ∧ (mergeAircraft sampleAircraft sampleAircraft [] "2026-03-01" "T").metadata.created_at
            = sampleAircraft.metadata.created_at
        ∧ (∃ tl, (mergeAircraft sampleAircraft sampleAircraft [] "2026-03-01" "T").history
            = sampleAircraft.history ++ tl)
        ∧ (mergeAircraft sampleAircraft sampleAircraft [] "2026-03-01" "T").tracking.last_seen
            = "2026-03-01"
        ∧ sampleAircraft.tracking.last_seen.data
            ≤ (mergeAircraft sampleAircraft sampleAircraft []
                "2026-03-01" "T").tracking.last_seen.data
        ∧ sampleAircraft.tracking.total_flights
            < (mergeAircraft sampleAircraft sampleAircraft []
                "2026-03-01" "T").tracking.total_flights)
      ∧ ((seenUpdate sampleAircraft "2026-03-01").tracking.first_seen
          = sampleAircraft.tracking.first_seen
        ∧ (seenUpdate sampleAircraft "2026-03-01").metadata.created_at
            = sampleAircraft.metadata.created_at
        ∧ (seenUpdate sampleAircraft "2026-03-01").history = sampleAircraft.history
        ∧ (seenUpdate sampleAircraft "2026-03-01").tracking.last_seen = "2026-03-01"
        ∧ sampleAircraft.tracking.last_seen.data
            ≤ (seenUpdate sampleAircraft "2026-03-01").tracking.last_seen.data
        ∧ sampleAircraft.tracking.total_flights
            < (seenUpdate sampleAircraft "2026-03-01").tracking.total_flights)) :=
  ⟨by decide,
   c3_step_monotonic sampleAircraft sampleAircraft [] "2026-03-01" "T" (by decide)⟩

/-! ## Claim C4 — pagination bound -/

/-- Bound on the request count of the pagination loop: starting from page
`p ≤ 100`, at most `101 - p` further requests happen. -/
theorem fetchLoop_count_bound (api : Nat → ApiResponse) :
    ∀ fuel p, p ≤ 100 → (fetchLoop api fuel p).2 + p ≤ 101 := by
  intro fuel
  induction fuel with
  | zero => intro p hp; simp only [fetchLoop]; omega
  | succ fuel ih =>
    intro p hp
    simp only [fetchLoop]
    by_cases hbreak : p + 1 > 100
    · simp only [if_pos hbreak]; omega
    · have hp1 : p + 1 ≤ 100 := by omega
      by_cases hmore : p < (if (api p).totalPages = 0 then 1 else (api p).totalPages) - 1
      · simp only [if_neg hbreak, if_pos hmore]
        have := ih (p + 1) hp1
        omega
      · simp only [if_neg hbreak, if_neg hmore]; omega

/-- Exact request count against an API that constantly reports `T` total
pages, starting from page `p`. -/
theorem fetchLoop_count_const (fl : List Flight) (T : Nat) :
    ∀ fuel p, p ≤ 100 → 101 - p < fuel → p < T →
      (fetchLoop (fun _ => { operationalFlights := fl, totalPages := T }) fuel p).2
        = min (T - p) (101 - p) := by
  intro fuel
  induction fuel with
  | zero => intro p hp hf hpT; omega
  | succ fuel ih =>
    intro p hp hf hpT
    have hT0 : T ≠ 0 := by omega
    simp only [fetchLoop, if_neg hT0]
    by_cases hbreak : p + 1 > 100
    · simp only [if_pos hbreak]
      omega
    · by_cases hmore : p < T - 1
      · simp only [if_neg hbreak, if_pos hmore]
        rw [ih (p + 1) (by omega) (by omega) (by omega)]
        omega
      · simp only [if_neg hbreak, if_neg hmore]
        omega

/-- C4 counterexample: with an API that always reports 1000 total pages,
the loop performs 101 page requests (pages 0 through 100): the break
`if (pageNumber > 100)` only fires after the increment, i.e. after the
101st request, so more than 100 pages are requested. -/
theorem c4_counterexample :
    100 < (fetchFlightsForDate (fun _ => { operationalFlights := [], totalPages := 1000 })).2 := by
  decide

/-- C4 (amended): the crawl of one date requests successive pages until
the API reports no further pages — against an API constantly reporting
`T ≥ 1` total pages it makes exactly `min T 101` requests — and a hard
cap stops it after at most 101 page requests (pages 0 through 100),
never more, for any API behaviour. -/
theorem c4_page_cap (api : Nat → ApiResponse) (fl : List Flight) (T : Nat) (hT : 1 ≤ T) :
    (fetchFlightsForDate api).2 ≤ 101
    ∧ (fetchFlightsForDate (fun _ => { operationalFlights := fl, totalPages := T })).2
        = min T 101 := by
  constructor
  · have h := fetchLoop_count_bound api 102 0 (by omega)
    show (fetchLoop api 102 0).2 ≤ 101
    omega
  · have := fetchLoop_count_const fl T 102 0 (by omega) (by omega) (by omega)
    simpa using this

/-- C4 witness: the amended theorem applied to a 5-page API. -/
theorem c4_page_cap_witness :
    1 ≤ 5
    ∧ ((fetchFlightsForDate (fun _ => { operationalFlights := [], totalPages := 1000 })).2 ≤ 101
      ∧ (fetchFlightsForDate
          (fun _ => { operationalFlights := ([] : List Flight), totalPages := 5 })).2
          = min 5 101) :=
  ⟨by decide,
   c4_page_cap (fun _ => { operationalFlights := [], totalPages := 1000 }) [] 5 (by decide)⟩

/-! ## Claim C5 — bounded key rotation on rate-limit errors -/

/-- Rotation stays within the configured key indices. -/
theorem rotateKey_lt (numKeys i : Nat) (hn : 0 < numKeys) : rotateKey numKeys i < numKeys :=
  Nat.mod_lt _ hn

/-- Spine of the attempted-key list: starting from key `a < n`, the next
`m + 1` round-robin keys are `a, a+1, ..., a+m` modulo `n`. -/
theorem cons_mod_map_range (n a : Nat) (ha : a < n) (m : Nat) :
    a :: (List.range m).map (fun k => ((a + 1) % n + k) % n)
      = (List.range (m + 1)).map (fun k => (a + k) % n) := by
  have h1 : (a + 0) % n = a := by rw [Nat.add_zero, Nat.mod_eq_of_lt ha]
  rw [List.range_succ_eq_map, List.map_cons, h1, List.map_map]
  have h2 : (fun k => ((a + 1) % n + k) % n) = ((fun k => (a + k) % n) ∘ Nat.succ) := by
    funext k
    show ((a + 1) % n + k) % n = (a + Nat.succ k) % n
    rw [Nat.mod_add_mod]
    congr 1
    omega
  rw [h2]

/-- Retry tail of `apiRequest` under constant 429/403 responses: from
retry count `rc ≥ 1` with current key `i`, the remaining attempts use the
keys `i, i+1, ...` modulo `numKeys`, one per remaining retry, and the
call ends in a thrown error. -/
theorem apiRequestAux_tail (n : Nat) (respond : Nat → HttpStatus)
    (hresp : ∀ a, respond a = .tooManyRequests ∨ respond a = .forbidden) :
    ∀ fuel rc t i, 1 ≤ rc → rc ≤ n - 1 → i < n → n - rc ≤ fuel →
      apiRequestAux n respond fuel t i rc
        = ((List.range (n - rc)).map (fun k => (i + k) % n), true) := by
  intro fuel
  induction fuel with
  | zero => intro rc t i h1 h2 hi hf; omega
  | succ fuel ih =>
    intro rc t i h1 h2 hi hf
    have hn : 0 < n := by omega
    have hcond : ¬(1 < n ∧ rc = 0) := by omega
    simp only [apiRequestAux, if_neg hcond]
    rcases hresp t with h | h <;> rw [h]
    all_goals {
      by_cases hlt : rc < n - 1
      · simp only [if_pos hlt]
        rw [ih (rc + 1) (t + 1) (rotateKey n i) (by omega) (by omega)
          (rotateKey_lt n i hn) (by omega)]
        have hnrc : n - rc = (n - (rc + 1)) + 1 := by omega
        rw [hnrc, ← cons_mod_map_range n i hi (n - (rc + 1))]
        rfl
      · simp only [if_neg hlt]
        have hnrc : n - rc = 1 := by omega
        rw [hnrc]
        simp [List.range_succ, Nat.mod_eq_of_lt hi]
    }

/-- Distinctness of consecutive residues: `k ↦ (a + k) % n` is injective
on `[0, n)`. -/
theorem add_mod_inj (n a x y : Nat) (hx : x < n) (hy : y < n)
    (h : (a + x) % n = (a + y) % n) : x = y := by
  have hxy : x % n = y % n := Nat.ModEq.add_left_cancel' a h
  rwa [Nat.mod_eq_of_lt hx, Nat.mod_eq_of_lt hy] at hxy

/-- One unfolding step of `apiRequestAux` at positive fuel. -/
theorem apiRequestAux_step (n : Nat) (respond : Nat → HttpStatus)
    (fuel attempt keyIndex retryCount : Nat) :
    apiRequestAux n respond (fuel + 1) attempt keyIndex retryCount
      = (match respond attempt with
         | .ok => ([if 1 < n ∧ retryCount = 0 then rotateKey n keyIndex else keyIndex], false)
         | .tooManyRequests | .forbidden =>
           if retryCount < n - 1 then
             ((if 1 < n ∧ retryCount = 0 then rotateKey n keyIndex else keyIndex)
                :: (apiRequestAux n respond fuel (attempt + 1)
                    (rotateKey n
                      (if 1 < n ∧ retryCount = 0 then rotateKey n keyIndex else keyIndex))
                    (retryCount + 1)).1,
              (apiRequestAux n respond fuel (attempt + 1)
                  (rotateKey n
                    (if 1 < n ∧ retryCount = 0 then rotateKey n keyIndex else keyIndex))
                  (retryCount + 1)).2)
           else ([if 1 < n ∧ retryCount = 0 then rotateKey n keyIndex else keyIndex], true)
         | .otherFailure =>
           ([if 1 < n ∧ retryCount = 0 then rotateKey n keyIndex else keyIndex], true)) := rfl

/-- Full characterization of one all-429 `apiRequest` call: the attempt
keys are `n` consecutive round-robin indices starting from the key
selected by the initial rotation, and the call ends in a thrown error. -/
theorem apiRequestRun_const429 (n i : Nat) (respond : Nat → HttpStatus) (hn : 0 < n)
    (hi : i < n) (hresp : ∀ a, respond a = .tooManyRequests ∨ respond a = .forbidden) :
    apiRequestRun n i respond
      = ((List.range n).map
          (fun k => ((if 1 < n then (i + 1) % n else i) + k) % n), true) := by
  rcases n with _ | m
  · omega
  rcases m with _ | m
  · -- one key: a single attempt, no rotation, immediate escalation
    show apiRequestAux 1 respond (0 + 1) 0 i 0 = _
    rw [apiRequestAux_step]
    rcases hresp 0 with h | h <;> rw [h] <;>
      simp [List.range_succ, Nat.mod_eq_of_lt hi]
  · -- at least two keys: initial rotation, then the retry tail
    have h2 : 1 < m + 2 := by omega
    show apiRequestAux (m + 2) respond ((m + 1) + 1) 0 i 0 = _
    rw [apiRequestAux_step]
    rcases hresp 0 with h | h <;> rw [h]
    all_goals {
      rw [if_pos (show 1 < m + 2 ∧ (0 : Nat) = 0 from ⟨h2, rfl⟩),
        if_pos (show (0 : Nat) < m + 2 - 1 by omega)]
      rw [apiRequestAux_tail (m + 2) respond hresp (m + 1) 1 1
        (rotateKey (m + 2) (rotateKey (m + 2) i)) (by omega) (by omega)
        (rotateKey_lt _ _ (by omega)) (by omega)]
      have hr : rotateKey (m + 2) i < m + 2 := rotateKey_lt _ _ (by omega)
      have hspine := cons_mod_map_range (m + 2) (rotateKey (m + 2) i) hr (m + 2 - 1)
      have hm2 : m + 2 - 1 + 1 = m + 2 := by omega
      rw [hm2] at hspine
      rw [show rotateKey (m + 2) (rotateKey (m + 2) i)
          = (rotateKey (m + 2) i + 1) % (m + 2) from rfl]
      rw [hspine, if_pos h2]
      rfl
    }

/-- C5: with `n` configured keys and every fetch answered 429 or 403, one
`apiRequest` call makes exactly `n` attempts using `n` pairwise distinct
key indices (all within range), and then escalates the error as fatal
instead of handling it. -/
theorem c5_key_rotation (n i : Nat) (respond : Nat → HttpStatus) (hn : 0 < n) (hi : i < n)
    (hresp : ∀ a, respond a = .tooManyRequests ∨ respond a = .forbidden) :
    (apiRequestRun n i respond).1.length = n
    ∧ (apiRequestRun n i respond).1.Nodup
    ∧ (∀ k ∈ (apiRequestRun n i respond).1, k < n)
    ∧ (apiRequestRun n i respond).2 = true := by
  have hchar := apiRequestRun_const429 n i respond hn hi hresp
  refine ⟨?_, ?_, ?_, ?_⟩
  · rw [hchar]; simp
  · rw [hchar]
    refine List.Nodup.map_on ?_ (List.nodup_range n)
    intro x hx y hy hxy
    exact add_mod_inj n _ x y (List.mem_range.mp hx) (List.mem_range.mp hy) hxy
  · rw [hchar]
    intro k hk
    rcases List.mem_map.mp hk with ⟨j, _, rfl⟩
    exact Nat.mod_lt _ hn
  · rw [hchar]

/-- C5 witness: three keys, every request 429: exactly three distinct
in-range keys attempted, then a fatal error. -/
theorem c5_key_rotation_witness :
    (0 < 3 ∧ 0 < 3)
    ∧ ((apiRequestRun 3 0 (fun _ => .tooManyRequests)).1.length = 3
      ∧ (apiRequestRun 3 0 (fun _ => .tooManyRequests)).1.Nodup
      ∧ (∀ k ∈ (apiRequestRun 3 0 (fun _ => .tooManyRequests)).1, k < 3)
      ∧ (apiRequestRun 3 0 (fun _ => .tooManyRequests)).2 = true) :=
  ⟨⟨by decide, by decide⟩,
   c5_key_rotation 3 0 (fun _ => .tooManyRequests) (by decide) (by decide)
     (fun _ => Or.inl rfl)⟩

/-! ## Claim C7 — SEEN reconciliation frame -/

/-- C7: reconciling an existing record against a transformed record that
agrees on all four tracked properties produces no change entries (action
SEEN: `totalSeen` increments, nothing is added to the change list), and
the record update touches only `tracking.last_seen` (set to the
observation date) and `tracking.total_flights` (incremented): every other
field — `metadata` (hence `updated_at`) and `history` included — is left
unchanged. -/
theorem c7_seen_frame (st : ProcessState) (o : RawObs) (d now : String) (existing : Aircraft)
    (hfind : st.catalog.find? (fun a => a.registration == o.registration) = some existing)
    (h1 : existing.connectivity.wifi = (transformToSchema o d now).connectivity.wifi)
    (h2 : existing.connectivity.wifi_provider
      = (transformToSchema o d now).connectivity.wifi_provider)
    (h3 : existing.cabin.physical_configuration
      = (transformToSchema o d now).cabin.physical_configuration)
    (h4 : existing.operator.sub_fleet_code
      = (transformToSchema o d now).operator.sub_fleet_code) :
    detectChanges existing (transformToSchema o d now) d = []
    ∧ processObs false d now st o
        = { st with
            totalSeen := st.totalSeen + 1
            catalog := replaceReg st.catalog o.registration (seenUpdate existing d) }
    ∧ (seenUpdate existing d).registration = existing.registration
    ∧ (seenUpdate existing d).icao24 = existing.icao24
    ∧ (seenUpdate existing d).aircraft_type = existing.aircraft_type
    ∧ (seenUpdate existing d).operator = existing.operator
    ∧ (seenUpdate existing d).cabin = existing.cabin
    ∧ (seenUpdate existing d).connectivity = existing.connectivity
    ∧ (seenUpdate existing d).status = existing.status
    ∧ (seenUpdate existing d).metadata = existing.metadata
    ∧ (seenUpdate existing d).history = existing.history
    ∧ (seenUpdate existing d).tracking.first_seen = existing.tracking.first_seen
    ∧ (seenUpdate existing d).tracking.last_seen = d
    ∧ (seenUpdate existing d).tracking.total_flights = existing.tracking.total_flights + 1 := by
  have hchanges : detectChanges existing (transformToSchema o d now) d = [] := by
    simp [detectChanges, h1, h2, h3, h4]
  refine ⟨hchanges, ?_, rfl, rfl, rfl, rfl, rfl, rfl, rfl, rfl, rfl, rfl, rfl, rfl⟩
  simp [processObs, hfind, hchanges]

/-- C7 witness: re-observing an unchanged aircraft one day later. -/
theorem c7_seen_frame_witness :
    (seenState.catalog.find?
        (fun a => a.registration == rawWifiOnLowSpeed.registration) = some seenExisting
      ∧ seenExisting.connectivity.wifi
          = (transformToSchema rawWifiOnLowSpeed "2026-02-15" "T1").connectivity.wifi
      ∧ seenExisting.connectivity.wifi_provider
          = (transformToSchema rawWifiOnLowSpeed "2026-02-15" "T1").connectivity.wifi_provider
      ∧ seenExisting.cabin.physical_configuration
          = (transformToSchema rawWifiOnLowSpeed "2026-02-15" "T1").cabin.physical_configuration
      ∧ seenExisting.operator.sub_fleet_code
          = (transformToSchema rawWifiOnLowSpeed "2026-02-15" "T1").operator.sub_fleet_code)
    ∧ (detectChanges seenExisting (transformToSchema rawWifiOnLowSpeed "2026-02-15" "T1")
          "2026-02-15" = []
      ∧ processObs false "2026-02-15" "T1" seenState rawWifiOnLowSpeed
          = { seenState with
              totalSeen := seenState.totalSeen + 1
              catalog := replaceReg seenState.catalog rawWifiOnLowSpeed.registration
                (seenUpdate seenExisting "2026-02-15") }
      ∧ (seenUpdate seenExisting "2026-02-15").registration = seenExisting.registration
      ∧ (seenUpdate seenExisting "2026-02-15").icao24 = seenExisting.icao24
      ∧ (seenUpdate seenExisting "2026-02-15").aircraft_type = seenExisting.aircraft_type
      ∧ (seenUpdate seenExisting "2026-02-15").operator = seenExisting.operator
      ∧ (seenUpdate seenExisting "2026-02-15").cabin = seenExisting.cabin
      ∧ (seenUpdate seenExisting "2026-02-15").connectivity = seenExisting.connectivity
      ∧ (seenUpdate seenExisting "2026-02-15").status = seenExisting.status
      ∧ (seenUpdate seenExisting "2026-02-15").metadata = seenExisting.metadata
      ∧ (seenUpdate seenExisting "2026-02-15").history = seenExisting.history
      ∧ (seenUpdate seenExisting "2026-02-15").tracking.first_seen
          = seenExisting.tracking.first_seen
      ∧ (seenUpdate seenExisting "2026-02-15").tracking.last_seen = "2026-02-15"
      ∧ (seenUpdate seenExisting "2026-02-15").tracking.total_flights
          = seenExisting.tracking.total_flights + 1) :=
  ⟨⟨by decide, rfl, rfl, rfl, rfl⟩,
   c7_seen_frame seenState rawWifiOnLowSpeed "2026-02-15" "T1" seenExisting
     (by decide) rfl rfl rfl rfl⟩

/-! ## Claim C8 — catalog persistence -/

/-- C8: the catalog is persisted exactly when dry-run is off and at least
one aircraft was created, updated or re-seen; the persisted document has
`aircraft_count` equal to the length of its aircraft list, and the list
is sorted by (type IATA code with absent read as empty string, then
registration). -/
theorem c8_save_invariants (dryRun : Bool) (tn tu ts : Nat) (catalog : Catalog) (now : String) :
    (finalSave dryRun tn tu ts catalog now = none
        ↔ (dryRun = true ∨ (tn = 0 ∧ tu = 0 ∧ ts = 0)))
    ∧ (∀ c', finalSave dryRun tn tu ts catalog now = some c' →
        dryRun = false ∧ (0 < tn ∨ 0 < tu ∨ 0 < ts)
        ∧ c'.aircraft_count = c'.aircraft.length
        ∧ List.Sorted aircraftLE c'.aircraft) := by
  constructor
  · cases dryRun <;> (simp [finalSave]; try omega)
  · intro c' h
    cases dryRun
    case false =>
      unfold finalSave at h
      split at h
      case isTrue hcond =>
        rw [Option.some.injEq] at h
        subst h
        refine ⟨rfl, ?_, ?_, ?_⟩
        · simp at hcond
          omega
        · show catalog.aircraft.length = (List.insertionSort aircraftLE catalog.aircraft).length
          rw [List.length_insertionSort]
        · exact List.sorted_insertionSort aircraftLE catalog.aircraft
      case isFalse => exact absurd h (by simp)
    case true => exact absurd h (by simp [finalSave])

/-- C8 witness: a non-dry run with one new aircraft persists a sorted,
correctly counted catalog; a dry run persists nothing. -/
theorem c8_save_invariants_witness :
    (∃ c', finalSave false 1 0 0 sampleCatalog "T" = some c'
      ∧ (false = false ∧ ((0 : Nat) < 1 ∨ (0 : Nat) < 0 ∨ (0 : Nat) < 0)
        ∧ c'.aircraft_count = c'.aircraft.length
        ∧ List.Sorted aircraftLE c'.aircraft))
    ∧ (finalSave true 1 0 0 sampleCatalog "T" = none
      ↔ (true = true ∨ ((1 : Nat) = 0 ∧ (0 : Nat) = 0 ∧ (0 : Nat) = 0))) :=
  ⟨⟨_, rfl, (c8_save_invariants false 1 0 0 sampleCatalog "T").2 _ rfl⟩,
   (c8_save_invariants true 1 0 0 sampleCatalog "T").1⟩

/-! ## Claim C9 — one observation-day counts at most once -/

/-- Replacing the record of registration `q` leaves lookups of any other
registration unchanged. -/
theorem find?_replaceReg_other (cat : List Aircraft) (q r : String) (a' : Aircraft)
    (hne : q ≠ r) (ha' : a'.registration = q) :
    (replaceReg cat q a').find? (fun x => x.registration == r)
      = cat.find? (fun x => x.registration == r) := by
  induction cat with
  | nil => rfl
  | cons x xs ih =>
    simp only [replaceReg, List.map_cons]
    by_cases hx : x.registration = q
    · rw [if_pos hx, List.find?_cons, List.find?_cons]
      have hpa : (a'.registration == r) = false := by simp [ha', hne]
      have hpx : (x.registration == r) = false := by simp [hx, hne]
      rw [hpa, hpx]
      exact ih
    · rw [if_neg hx, List.find?_cons, List.find?_cons]
      by_cases hpx : (x.registration == r) = true
      · rw [hpx]
      · rw [Bool.not_eq_true] at hpx
        rw [hpx]
        exact ih

/-- Replacing the record of a present registration makes the lookup of
that registration return the replacement. -/
theorem find?_replaceReg_hit (cat : List Aircraft) (q : String) (a a' : Aircraft)
    (ha' : a'.registration = q)
    (hfind : cat.find? (fun x => x.registration == q) = some a) :
    (replaceReg cat q a').find? (fun x => x.registration == q) = some a' := by
  induction cat with
  | nil => simp at hfind
  | cons x xs ih =>
    rw [List.find?_cons] at hfind
    simp only [replaceReg, List.map_cons]
    by_cases hx : x.registration = q
    · rw [if_pos hx, List.find?_cons]
      have hq : (a'.registration == q) = true := by simp [ha']
      rw [hq]
    · rw [if_neg hx, List.find?_cons]
      have hxq : (x.registration == q) = false := by simp [hx]
      rw [hxq]
      rw [hxq] at hfind
      exact ih hfind

/-- Processing an observation of a different registration leaves the
lookup of registration `r` unchanged. -/
theorem processObs_catalog_other (d now : String) (st : ProcessState) (o : RawObs) (r : String)
    (hne : o.registration ≠ r) :
    (processObs false d now st o).catalog.find? (fun x => x.registration == r)
      = st.catalog.find? (fun x => x.registration == r) := by
  rcases hf : st.catalog.find? (fun a => a.registration == o.registration) with _ | ex
  · simp only [processObs, hf]
    simp only [Bool.false_eq_true, if_false]
    rw [List.find?_append]
    have hreg : ((transformToSchema o d now).registration == r) = false := by
      have h0 : (transformToSchema o d now).registration = o.registration := rfl
      simp [h0, hne]
    rw [show List.find? (fun x => x.registration == r) [transformToSchema o d now] = none
      from by rw [List.find?_cons, hreg]; rfl]
    rw [Option.or_none]
  · have hex : ex.registration = o.registration := by
      simpa using List.find?_some hf
    simp only [processObs, hf]
    by_cases hc : (detectChanges ex (transformToSchema o d now) d).length > 0
    · rw [if_pos hc]
      simp only [Bool.false_eq_true, if_false]
      exact find?_replaceReg_other st.catalog o.registration r _ hne hex
    · rw [if_neg hc]
      simp only [Bool.false_eq_true, if_false]
      exact find?_replaceReg_other st.catalog o.registration r _ hne hex

/-- Processing an observation of a present registration increments that
record's flight counter by exactly one (merge and seen branches alike). -/
theorem processObs_catalog_hit (d now : String) (st : ProcessState) (o : RawObs) (a : Aircraft)
    (hfind : st.catalog.find? (fun x => x.registration == o.registration) = some a) :
    ∃ a', (processObs false d now st o).catalog.find?
        (fun x => x.registration == o.registration) = some a'
      ∧ a'.tracking.total_flights = a.tracking.total_flights + 1 := by
  have hreg : a.registration = o.registration := by
    simpa using List.find?_some hfind
  simp only [processObs, hfind]
  by_cases hc : (detectChanges a (transformToSchema o d now) d).length > 0
  · refine ⟨mergeAircraft a (transformToSchema o d now)
      (detectChanges a (transformToSchema o d now) d) d now, ?_, rfl⟩
    rw [if_pos hc]
    simp only [Bool.false_eq_true, if_false]
    exact find?_replaceReg_hit st.catalog o.registration a _ hreg hfind
  · refine ⟨seenUpdate a d, ?_, rfl⟩
    rw [if_neg hc]
    simp only [Bool.false_eq_true, if_false]
    exact find?_replaceReg_hit st.catalog o.registration a _ hreg hfind

/-- Folding over observations none of which carries registration `r`
leaves the lookup of `r` unchanged. -/
theorem foldl_catalog_no_r (d now r : String) :
    ∀ (obs : List RawObs) (st : ProcessState),
      obs.countP (fun o => o.registration == r) = 0 →
      ((obs.foldl (processObs false d now) st).catalog.find? (fun x => x.registration == r)
        = st.catalog.find? (fun x => x.registration == r)) := by
  intro obs
  induction obs with
  | nil => intro st _; rfl
  | cons o os ih =>
    intro st hcount
    rw [List.countP_cons] at hcount
    have ho : o.registration ≠ r := by
      intro h
      simp [h] at hcount
    rw [List.foldl_cons, ih _ (by omega)]
    exact processObs_catalog_other d now st o r ho

/-- Folding over observations among which registration `r` appears at
most once changes that record's flight counter by at most one. -/
theorem foldl_catalog_with_r (d now r : String) :
    ∀ (obs : List RawObs) (st : ProcessState) (a : Aircraft),
      obs.countP (fun o => o.registration == r) ≤ 1 →
      st.catalog.find? (fun x => x.registration == r) = some a →
      ∃ a', (obs.foldl (processObs false d now) st).catalog.find?
          (fun x => x.registration == r) = some a'
        ∧ (a'.tracking.total_flights = a.tracking.total_flights
            ∨ a'.tracking.total_flights = a.tracking.total_flights + 1) := by
  intro obs
  induction obs with
  | nil => intro st a _ hfind; exact ⟨a, hfind, Or.inl rfl⟩
  | cons o os ih =>
    intro st a hcount hfind
    rw [List.countP_cons] at hcount
    rw [List.foldl_cons]
    by_cases ho : o.registration = r
    · have hcount0 : os.countP (fun o => o.registration == r) = 0 := by
        have hbeq : (o.registration == r) = true := by simp [ho]
        rw [hbeq, if_pos rfl] at hcount
        omega
      obtain ⟨a', h1, h2⟩ := processObs_catalog_hit d now st o a (by rw [ho]; exact hfind)
      rw [ho] at h1
      rw [foldl_catalog_no_r d now r os _ hcount0, h1]
      exact ⟨a', rfl, Or.inr h2⟩
    · have hfind' : (processObs false d now st o).catalog.find?
          (fun x => x.registration == r) = some a := by
        rw [processObs_catalog_other d now st o r ho]
        exact hfind
      exact ih _ a (by omega) hfind'

/-- One `Map.set` step keeps every registration's multiplicity at most 1. -/
theorem insertObs_countP (r : String) (acc : List RawObs) (o : RawObs)
    (h : acc.countP (fun x => x.registration == r) ≤ 1) :
    (insertObs acc o).countP (fun x => x.registration == r) ≤ 1 := by
  unfold insertObs
  by_cases hmem : acc.any (fun x => x.registration == o.registration) = true
  · rw [if_pos hmem, List.countP_map]
    have heq : acc.countP ((fun x => x.registration == r)
          ∘ (fun x => if x.registration = o.registration then o else x))
        = acc.countP (fun x => x.registration == r) := by
      apply List.countP_congr
      intro x _
      by_cases hxo : x.registration = o.registration
      · simp [Function.comp, hxo]
      · simp [Function.comp, hxo]
    rw [heq]
    exact h
  · rw [if_neg hmem, List.countP_append]
    by_cases hor : o.registration = r
    · have h0 : acc.countP (fun x => x.registration == r) = 0 := by
        rw [List.countP_eq_zero]
        intro x hx hxr
        apply hmem
        rw [List.any_eq_true]
        refine ⟨x, hx, ?_⟩
        rw [beq_iff_eq] at hxr ⊢
        rw [hxr, hor]
      have h1 : ([o].countP (fun x => x.registration == r)) ≤ 1 := by
        simp only [List.countP_cons, List.countP_nil]
        split <;> omega
      omega
    · have h1 : ([o].countP (fun x => x.registration == r)) = 0 := by
        simp [List.countP_cons, hor]
      omega

/-- After deduplication each registration occurs at most once. -/
theorem dedupe_countP (r : String) (obs : List RawObs) :
    (dedupeByReg obs).countP (fun x => x.registration == r) ≤ 1 := by
  have key : ∀ (l : List RawObs) (acc : List RawObs),
      acc.countP (fun x => x.registration == r) ≤ 1 →
      (l.foldl insertObs acc).countP (fun x => x.registration == r) ≤ 1 := by
    intro l
    induction l with
    | nil => intro acc h; exact h
    | cons o os ih =>
      intro acc h
      rw [List.foldl_cons]
      exact ih _ (insertObs_countP r acc o h)
  exact key obs [] (by simp)

/-- C9: processing one date's flights advances the flight counter of any
registration already in the catalog by at most 1 — the day's observations
are deduplicated by registration before reconciliation, so the counter
counts observation-days, not flights. -/
theorem c9_total_flights_per_date (flights : List Flight) (airlineCode d now r : String)
    (st : ProcessState) (a : Aircraft)
    (hfind : st.catalog.find? (fun x => x.registration == r) = some a) :
    ∃ a', (processDate false airlineCode d now st flights).catalog.find?
        (fun x => x.registration == r) = some a'
      ∧ a.tracking.total_flights ≤ a'.tracking.total_flights
      ∧ a'.tracking.total_flights ≤ a.tracking.total_flights + 1 := by
  obtain ⟨a', h1, h2⟩ := foldl_catalog_with_r d now r
    (dedupeByReg (flights.filterMap (fun f => extractAircraftFromFlight f airlineCode)))
    st a (dedupe_countP r _) hfind
  refine ⟨a', h1, ?_⟩
  rcases h2 with h | h <;> omega

/-- C9 witness: a date on which `PH-BHA` flies once. -/
theorem c9_total_flights_witness :
    sampleState.catalog.find? (fun x => x.registration == "PH-BHA") = some sampleAircraft
    ∧ (∃ a', (processDate false "KL" "2026-02-16" "T" sampleState [sampleFlight]).catalog.find?
        (fun x => x.registration == "PH-BHA") = some a'
      ∧ sampleAircraft.tracking.total_flights ≤ a'.tracking.total_flights
      ∧ a'.tracking.total_flights ≤ sampleAircraft.tracking.total_flights + 1) :=
  ⟨by decide,
   c9_total_flights_per_date [sampleFlight] "KL" "2026-02-16" "T" "PH-BHA" sampleState
     sampleAircraft (by decide)⟩

/-! ## Claim C10 — dry-run suppresses only catalog mutation and save -/

/-- A dry-run observation step never touches the catalog. -/
theorem processObs_dryRun_catalog (d now : String) (st : ProcessState) (o : RawObs) :
    (processObs true d now st o).catalog = st.catalog := by
  rcases hf : st.catalog.find? (fun a => a.registration == o.registration) with _ | ex
  · simp [processObs, hf]
  · by_cases hc : (detectChanges ex (transformToSchema o d now) d).length > 0
    · simp [processObs, hf, hc]
    · simp [processObs, hf, hc]

/-- A dry-run fold over one date's observations never touches the
catalog. -/
theorem foldl_dryRun_catalog (d now : String) :
    ∀ (obs : List RawObs) (st : ProcessState),
      (obs.foldl (processObs true d now) st).catalog = st.catalog := by
  intro obs
  induction obs with
  | nil => intro st; rfl
  | cons o os ih =>
    intro st
    rw [List.foldl_cons, ih (processObs true d now st o)]
    exact processObs_dryRun_catalog d now st o

/-- A whole dry run never touches the catalog. -/
theorem runDates_dryRun_catalog (airlineCode now : String) :
    ∀ (dates : List (String × List Flight)) (st : ProcessState),
      (runDates true airlineCode now dates st).catalog = st.catalog := by
  intro dates
  induction dates with
  | nil => intro st; rfl
  | cons p ps ih =>
    intro st
    show (runDates true airlineCode now ps
      (processDate true airlineCode p.1 now st p.2)).catalog = st.catalog
    rw [ih (processDate true airlineCode p.1 now st p.2)]
    exact foldl_dryRun_catalog p.1 now _ st

/-- C10: in a dry run, when the changes export is requested and at least
one change was collected, the export document is still produced (the
export condition never consults the dry-run flag) and contains exactly
the collected changes; dry-run suppresses only the catalog mutations
(the in-memory catalog is left untouched) and the catalog save (which
never happens in a dry run). -/
theorem c10_dry_run_export (airlineCode now : String) (dates : List (String × List Flight))
    (st₀ : ProcessState) (outputChanges : Bool) :
    (outputChanges = true → (runDates true airlineCode now dates st₀).allChanges ≠ [] →
      ∃ e, exportChanges outputChanges airlineCode now (runDates true airlineCode now dates st₀)
          = some e
        ∧ e.changes = (runDates true airlineCode now dates st₀).allChanges)
    ∧ (runDates true airlineCode now dates st₀).catalog = st₀.catalog
    ∧ (∀ (tn tu ts : Nat) (catalog : Catalog) (t : String),
        finalSave true tn tu ts catalog t = none) := by
  refine ⟨?_, runDates_dryRun_catalog airlineCode now dates st₀, ?_⟩
  · intro hoc hne
    have hlen : 0 < (runDates true airlineCode now dates st₀).allChanges.length :=
      List.length_pos.mpr hne
    refine ⟨⟨now, airlineCode, (runDates true airlineCode now dates st₀).allChanges⟩, ?_, rfl⟩
    simp only [exportChanges, hoc, Bool.true_and]
    rw [if_pos (by simpa using hlen)]
  · intro tn tu ts catalog t
    simp [finalSave]

/-- C10 witness: a dry run that has collected one change with export
requested. -/
theorem c10_dry_run_export_witness :
    (true = true ∧ (runDates true "KL" "T" [] sampleStateChanges).allChanges ≠ [])
    ∧ (∃ e, exportChanges true "KL" "T" (runDates true "KL" "T" [] sampleStateChanges) = some e
        ∧ e.changes = (runDates true "KL" "T" [] sampleStateChanges).allChanges)
    ∧ (runDates true "KL" "T" [] sampleStateChanges).catalog = sampleStateChanges.catalog
    ∧ (∀ (tn tu ts : Nat) (catalog : Catalog) (t : String),
        finalSave true tn tu ts catalog t = none) :=
  ⟨⟨rfl, by decide⟩,
   (c10_dry_run_export "KL" "T" [] sampleStateChanges true).1 rfl (by decide),
   (c10_dry_run_export "KL" "T" [] sampleStateChanges true).2.1,
   (c10_dry_run_export "KL" "T" [] sampleStateChanges true).2.2⟩

end FleetUpdate
